import Mathlib

/-!
Shallow embedding of the Autopilot cost calculator core
(`main.go` and the table-display file): the compute-class classifier,
the lower-limit normalizer, the pricing engine, the price-catalog
routing and the cluster-total aggregation. Machine `int64` values are
modelled as `ℤ`, `float64` currency values as `ℚ` (exact arithmetic;
the repository's own tests compare with an epsilon). Diagnostic log
output is modelled as a `Bool` component in the `Logged` variants of
the functions.
-/

namespace Autopilot

/-- The compute classes (the repository's `COMPUTE_CLASS_*` constants). -/
inductive ComputeClass where
  | COMPUTE_CLASS_REGULAR
  | COMPUTE_CLASS_BALANCED
  | COMPUTE_CLASS_SCALEOUT
  | COMPUTE_CLASS_SCALEOUT_ARM
deriving DecidableEq

open ComputeClass

/-- `const CLUSTER_FEE = 0.1` (main.go line 38). -/
def CLUSTER_FEE : ℚ := 0.1

/-- `const ONE_YEAR_DISCOUNT = 0.8` (main.go line 46). -/
def ONE_YEAR_DISCOUNT : ℚ := 0.8

/-- `const THREE_YEAR_DISCOUNT = 0.55` (main.go line 47). -/
def THREE_YEAR_DISCOUNT : ℚ := 0.55

/-- The per-region price record `ap_pricing` (main.go lines 49-73). -/
structure ap_pricing where
  region : String
  storage_price : ℚ
  -- regular pricing
  cpu_price : ℚ
  memory_price : ℚ
  cpu_balanced_price : ℚ
  memory_balanced_price : ℚ
  cpu_scaleout_price : ℚ
  memory_scaleout_price : ℚ
  cpu_arm_scaleout_price : ℚ
  memory_arm_scaleout_price : ℚ
  -- spot pricing
  spot_cpu_price : ℚ
  spot_memory_price : ℚ
  spot_cpu_balanced_price : ℚ
  spot_memory_balanced_price : ℚ
  spot_cpu_scaleout_price : ℚ
  spot_memory_scaleout_price : ℚ
  spot_arm_cpu_scaleout_price : ℚ
  spot_arm_memory_scaleout_price : ℚ

/-- `CalculatePricing` (main.go lines 238-269): pick the cpu/memory unit
prices by (class, spot) and charge storage at the flat `storage_price`
rate in every branch. The spot Balanced branch reads `spot_cpu_price`
and `spot_memory_price`, exactly as main.go line 243 does. -/
def CalculatePricing (cpu_m memory_m storage_m : ℤ) (pricing : ap_pricing)
    (cls : ComputeClass) (spot : Bool) : ℚ :=
  if spot then
    match cls with
    | COMPUTE_CLASS_BALANCED =>
        pricing.spot_cpu_price * (cpu_m : ℚ) / 1000 +
        pricing.spot_memory_price * (memory_m : ℚ) / 1000 +
        pricing.storage_price * (storage_m : ℚ) / 1000
    | COMPUTE_CLASS_SCALEOUT =>
        pricing.spot_cpu_scaleout_price * (cpu_m : ℚ) / 1000 +
        pricing.spot_memory_scaleout_price * (memory_m : ℚ) / 1000 +
        pricing.storage_price * (storage_m : ℚ) / 1000
    | COMPUTE_CLASS_SCALEOUT_ARM =>
        pricing.spot_arm_cpu_scaleout_price * (cpu_m : ℚ) / 1000 +
        pricing.spot_arm_memory_scaleout_price * (memory_m : ℚ) / 1000 +
        pricing.storage_price * (storage_m : ℚ) / 1000
    | _ =>
        pricing.spot_cpu_price * (cpu_m : ℚ) / 1000 +
        pricing.spot_memory_price * (memory_m : ℚ) / 1000 +
        pricing.storage_price * (storage_m : ℚ) / 1000
  else
    match cls with
    | COMPUTE_CLASS_BALANCED =>
        pricing.cpu_balanced_price * (cpu_m : ℚ) / 1000 +
        pricing.memory_balanced_price * (memory_m : ℚ) / 1000 +
        pricing.storage_price * (storage_m : ℚ) / 1000
    | COMPUTE_CLASS_SCALEOUT =>
        pricing.cpu_scaleout_price * (cpu_m : ℚ) / 1000 +
        pricing.memory_scaleout_price * (memory_m : ℚ) / 1000 +
        pricing.storage_price * (storage_m : ℚ) / 1000
    | COMPUTE_CLASS_SCALEOUT_ARM =>
        pricing.cpu_arm_scaleout_price * (cpu_m : ℚ) / 1000 +
        pricing.memory_arm_scaleout_price * (memory_m : ℚ) / 1000 +
        pricing.storage_price * (storage_m : ℚ) / 1000
    | _ =>
        pricing.cpu_price * (cpu_m : ℚ) / 1000 +
        pricing.memory_price * (memory_m : ℚ) / 1000 +
        pricing.storage_price * (storage_m : ℚ) / 1000

/-- `CalculatePricing` together with its diagnostic logging: the second
component is true exactly when the ARM-price warning of main.go
lines 246-250 (spot) or 261-265 (on-demand) fires. -/
def CalculatePricingLogged (cpu_m memory_m storage_m : ℤ) (pricing : ap_pricing)
    (cls : ComputeClass) (spot : Bool) : ℚ × Bool :=
  if spot then
    match cls with
    | COMPUTE_CLASS_SCALEOUT_ARM =>
        (pricing.spot_arm_cpu_scaleout_price * (cpu_m : ℚ) / 1000 +
         pricing.spot_arm_memory_scaleout_price * (memory_m : ℚ) / 1000 +
         pricing.storage_price * (storage_m : ℚ) / 1000,
         decide (pricing.spot_arm_cpu_scaleout_price = 0 ∨
                 pricing.spot_arm_memory_scaleout_price = 0))
    | cls2 => (CalculatePricing cpu_m memory_m storage_m pricing cls2 true, false)
  else
    match cls with
    | COMPUTE_CLASS_SCALEOUT_ARM =>
        (pricing.cpu_arm_scaleout_price * (cpu_m : ℚ) / 1000 +
         pricing.memory_arm_scaleout_price * (memory_m : ℚ) / 1000 +
         pricing.storage_price * (storage_m : ℚ) / 1000,
         decide (pricing.cpu_arm_scaleout_price = 0 ∨
                 pricing.memory_arm_scaleout_price = 0))
    | cls2 => (CalculatePricing cpu_m memory_m storage_m pricing cls2 false, false)

/-- The value `math.Ceil(float64(memory) / float64(mCPU))` computed at
the top of `DecideComputeClass` (main.go line 272), as the exact integer
ceiling of the quotient. -/
def ratioOf (mCPU memory : ℤ) : ℤ := Int.ceil ((memory : ℚ) / (mCPU : ℚ))

/-- `DecideComputeClass` (main.go lines 271-301): the first-match rule
chain over the ceiling memory/cpu quotient. -/
def DecideComputeClass (mCPU memory : ℤ) (arm64 : Bool) : ComputeClass :=
  if arm64 then
    COMPUTE_CLASS_SCALEOUT_ARM
  else if (ratioOf mCPU memory : ℚ) ≥ 1 ∧ (ratioOf mCPU memory : ℚ) ≤ 6.5 ∧
      mCPU ≤ 30000 ∧ memory ≤ 110000 then
    COMPUTE_CLASS_REGULAR
  else if (ratioOf mCPU memory : ℚ) = 4 ∧ mCPU ≤ 54000 ∧ memory ≤ 216000 then
    COMPUTE_CLASS_SCALEOUT
  else if (ratioOf mCPU memory : ℚ) ≥ 1 ∧ (ratioOf mCPU memory : ℚ) ≤ 8 ∧
      (mCPU > 30000 ∨ memory > 110000) then
    COMPUTE_CLASS_BALANCED
  else
    COMPUTE_CLASS_REGULAR

/-- `DecideComputeClass` together with its diagnostic logging: the
second component is true exactly when one of the `log.Printf` calls of
main.go lines 276-278 (ARM envelope) or line 298 (no matching class,
fall back to Regular) fires. -/
def DecideComputeClassLogged (mCPU memory : ℤ) (arm64 : Bool) : ComputeClass × Bool :=
  if arm64 then
    (COMPUTE_CLASS_SCALEOUT_ARM,
     decide ((ratioOf mCPU memory : ℚ) ≠ 4 ∨ mCPU > 43000 ∨ memory > 172000))
  else if (ratioOf mCPU memory : ℚ) ≥ 1 ∧ (ratioOf mCPU memory : ℚ) ≤ 6.5 ∧
      mCPU ≤ 30000 ∧ memory ≤ 110000 then
    (COMPUTE_CLASS_REGULAR, false)
  else if (ratioOf mCPU memory : ℚ) = 4 ∧ mCPU ≤ 54000 ∧ memory ≤ 216000 then
    (COMPUTE_CLASS_SCALEOUT, false)
  else if (ratioOf mCPU memory : ℚ) ≥ 1 ∧ (ratioOf mCPU memory : ℚ) ≤ 8 ∧
      (mCPU > 30000 ∨ memory > 110000) then
    (COMPUTE_CLASS_BALANCED, false)
  else
    (COMPUTE_CLASS_REGULAR, true)

/-- `ValidateLowerLimits` (main.go lines 303-317): clamp each dimension
up to the platform minimum. -/
def ValidateLowerLimits (mCPU memory storage : ℤ) : ℤ × ℤ × ℤ :=
  (if mCPU < 250 then 250 else mCPU,
   if memory < 500 then 500 else memory,
   if storage < 10 then 10 else storage)

/-- The classifier as the specification states it, written from the
spec's §4.2 rule list: compute `ratio = ceil(memoryMiB / cpuMilli)`,
then evaluate the four rules in order, first match winning, with
`Regular` as the warned fallback. -/
def classifySpec (cpuMilli memoryMiB : ℤ) (requestsArm : Bool) : ComputeClass :=
  if requestsArm then
    COMPUTE_CLASS_SCALEOUT_ARM
  else if 1 ≤ (Int.ceil ((memoryMiB : ℚ) / (cpuMilli : ℚ)) : ℚ) ∧
      (Int.ceil ((memoryMiB : ℚ) / (cpuMilli : ℚ)) : ℚ) ≤ 6.5 ∧
      cpuMilli ≤ 30000 ∧ memoryMiB ≤ 110000 then
    COMPUTE_CLASS_REGULAR
  else if Int.ceil ((memoryMiB : ℚ) / (cpuMilli : ℚ)) = 4 ∧
      cpuMilli ≤ 54000 ∧ memoryMiB ≤ 216000 then
    COMPUTE_CLASS_SCALEOUT
  else if 1 ≤ (Int.ceil ((memoryMiB : ℚ) / (cpuMilli : ℚ)) : ℚ) ∧
      (Int.ceil ((memoryMiB : ℚ) / (cpuMilli : ℚ)) : ℚ) ≤ 8 ∧
      (30000 < cpuMilli ∨ 110000 < memoryMiB) then
    COMPUTE_CLASS_BALANCED
  else
    COMPUTE_CLASS_REGULAR

/-- The cpu unit price the source selects for a (class, spot) pair, read
off the branches of `CalculatePricing` (main.go lines 238-269). -/
def cpuUnitPrice (p : ap_pricing) (cls : ComputeClass) (spot : Bool) : ℚ :=
  if spot then
    match cls with
    | COMPUTE_CLASS_BALANCED => p.spot_cpu_price
    | COMPUTE_CLASS_SCALEOUT => p.spot_cpu_scaleout_price
    | COMPUTE_CLASS_SCALEOUT_ARM => p.spot_arm_cpu_scaleout_price
    | _ => p.spot_cpu_price
  else
    match cls with
    | COMPUTE_CLASS_BALANCED => p.cpu_balanced_price
    | COMPUTE_CLASS_SCALEOUT => p.cpu_scaleout_price
    | COMPUTE_CLASS_SCALEOUT_ARM => p.cpu_arm_scaleout_price
    | _ => p.cpu_price

/-- The memory unit price the source selects for a (class, spot) pair,
read off the branches of `CalculatePricing` (main.go lines 238-269). -/
def memoryUnitPrice (p : ap_pricing) (cls : ComputeClass) (spot : Bool) : ℚ :=
  if spot then
    match cls with
    | COMPUTE_CLASS_BALANCED => p.spot_memory_price
    | COMPUTE_CLASS_SCALEOUT => p.spot_memory_scaleout_price
    | COMPUTE_CLASS_SCALEOUT_ARM => p.spot_arm_memory_scaleout_price
    | _ => p.spot_memory_price
  else
    match cls with
    | COMPUTE_CLASS_BALANCED => p.memory_balanced_price
    | COMPUTE_CLASS_SCALEOUT => p.memory_scaleout_price
    | COMPUTE_CLASS_SCALEOUT_ARM => p.memory_arm_scaleout_price
    | _ => p.memory_price

/-- The `Workload` record (fields as built in `PopulateWorkloads`,
main.go lines 213-222). -/
structure Workload where
  name : String
  containers : ℤ
  node_name : String
  cpu : ℤ
  memory : ℤ
  storage : ℤ
  cost : ℚ
  compute_class : ComputeClass

/-- The `Node` record (fields as used by `PopulateWorkloads` and the
display tables). -/
structure Node where
  name : String
  instanceType : String
  region : String
  spot : Bool
  workloads : List Workload
  cost : ℚ

/-- A node's running cost total after a full workload pass: each
workload's cost is added to the owning node's total as it is processed
(`entry.Cost += cost`, main.go lines 226-230). -/
def nodeCostAfterPass (initial : ℚ) (ws : List Workload) : ℚ :=
  ws.foldl (fun acc w => acc + w.cost) initial

/-- The two cluster accumulators of `DisplayWorkloadTable` (table file
lines 104-129): the non-spot total starts at the fixed `CLUSTER_FEE`
and takes every workload hosted on a non-spot node; the spot total
starts at 0 and takes every workload hosted on a spot node. -/
def clusterTotals (nodes : List Node) : ℚ × ℚ :=
  nodes.foldl
    (fun acc node =>
      node.workloads.foldl
        (fun acc2 w =>
          if node.spot then (acc2.1, acc2.2 + w.cost) else (acc2.1 + w.cost, acc2.2))
        acc)
    (CLUSTER_FEE, 0)

/-- The "Total cost per cluster per hour" row (table file line 131):
it prints `total_cost`, the non-spot accumulator alone. -/
def reportedTotal (nodes : List Node) : ℚ := (clusterTotals nodes).1

/-- The "... 1 year commit" row (table file line 132):
`total_cost_spot + total_cost * ONE_YEAR_DISCOUNT`. -/
def reportedTotal1yr (nodes : List Node) : ℚ :=
  (clusterTotals nodes).2 + (clusterTotals nodes).1 * ONE_YEAR_DISCOUNT

/-- The "... with 3 year commit" row (table file line 133):
`total_cost_spot + total_cost * THREE_YEAR_DISCOUNT`. -/
def reportedTotal3yr (nodes : List Node) : ℚ :=
  (clusterTotals nodes).2 + (clusterTotals nodes).1 * THREE_YEAR_DISCOUNT

/-- A SKU record as consumed by `GetAutopilotPricing` (main.go lines
356-364): description, region list, and the tiered unit price fields. -/
structure Sku where
  description : String
  serviceRegions : List String
  units : ℤ
  nanos : ℤ
  displayQuantity : ℤ

/-- The price decoding of main.go lines 361-364:
`(units*1e9 + nanos*displayQuantity) / 1e9`. -/
def skuPrice (s : Sku) : ℚ :=
  ((s.units * 1000000000 + s.nanos * s.displayQuantity : ℤ) : ℚ) / 1000000000

/-- The all-zero initial price record of `GetAutopilotPricing`
(main.go lines 321-340). -/
def initialPricing (region : String) : ap_pricing :=
  { region := region
    storage_price := 0
    cpu_price := 0
    memory_price := 0
    cpu_balanced_price := 0
    memory_balanced_price := 0
    cpu_scaleout_price := 0
    memory_scaleout_price := 0
    cpu_arm_scaleout_price := 0
    memory_arm_scaleout_price := 0
    spot_cpu_price := 0
    spot_memory_price := 0
    spot_cpu_balanced_price := 0
    spot_memory_balanced_price := 0
    spot_cpu_scaleout_price := 0
    spot_memory_scaleout_price := 0
    spot_arm_cpu_scaleout_price := 0
    spot_arm_memory_scaleout_price := 0 }

/-- One iteration of the SKU loop of `GetAutopilotPricing` (main.go
lines 356-420): skip SKUs whose region list misses the region, decode
the price, and route it by the description switch. Go evaluates the
cases of a switch in source order and executes the first match, so the
two later duplicate `Scale-Out Arm Spot` cases (main.go lines 412-417)
are kept here as the dead final branches they are. -/
def applySku (region : String) (p : ap_pricing) (sku : Sku) : ap_pricing :=
  if sku.serviceRegions.contains region then
    if sku.description = "Autopilot Pod Ephemeral Storage Requests (" ++ region ++ ")" then
      { p with storage_price := skuPrice sku }
    else if sku.description = "Autopilot Pod Memory Requests (" ++ region ++ ")" then
      { p with memory_price := skuPrice sku }
    else if sku.description = "Autopilot Pod mCPU Requests (" ++ region ++ ")" then
      { p with cpu_price := skuPrice sku }
    else if sku.description = "Autopilot Balanced Pod Memory Requests (" ++ region ++ ")" then
      { p with memory_balanced_price := skuPrice sku }
    else if sku.description = "Autopilot Balanced Pod mCPU Requests (" ++ region ++ ")" then
      { p with cpu_balanced_price := skuPrice sku }
    else if sku.description = "Autopilot Scale-Out x86 Pod Memory Requests (" ++ region ++ ")" then
      { p with memory_scaleout_price := skuPrice sku }
    else if sku.description = "Autopilot Scale-Out x86 Pod mCPU Requests (" ++ region ++ ")" then
      { p with cpu_scaleout_price := skuPrice sku }
    else if sku.description = "Autopilot Scale-Out Arm Spot Pod Memory Requests (" ++ region ++ ")" then
      { p with memory_arm_scaleout_price := skuPrice sku }
    else if sku.description = "Autopilot Scale-Out Arm Spot Pod mCPU Requests (" ++ region ++ ")" then
      { p with cpu_arm_scaleout_price := skuPrice sku }
    else if sku.description = "Autopilot Spot Pod Memory Requests (" ++ region ++ ")" then
      { p with spot_memory_price := skuPrice sku }
    else if sku.description = "Autopilot Spot Pod mCPU Requests (" ++ region ++ ")" then
      { p with spot_cpu_price := skuPrice sku }
    else if sku.description = "Autopilot Balanced Spot Pod Memory Requests (" ++ region ++ ")" then
      { p with spot_memory_balanced_price := skuPrice sku }
    else if sku.description = "Autopilot Balanced Spot Pod mCPU Requests (" ++ region ++ ")" then
      { p with spot_cpu_balanced_price := skuPrice sku }
    else if sku.description = "Autopilot Scale-Out x86 Spot Pod Memory Requests (" ++ region ++ ")" then
      { p with spot_memory_scaleout_price := skuPrice sku }
    else if sku.description = "Autopilot Scale-Out x86 Spot Pod mCPU Requests (" ++ region ++ ")" then
      { p with spot_cpu_scaleout_price := skuPrice sku }
    else if sku.description = "Autopilot Scale-Out Arm Spot Pod Memory Requests (" ++ region ++ ")" then
      { p with spot_arm_memory_scaleout_price := skuPrice sku }
    else if sku.description = "Autopilot Scale-Out Arm Spot Pod mCPU Requests (" ++ region ++ ")" then
      { p with spot_arm_cpu_scaleout_price := skuPrice sku }
    else p
  else p

/-- `GetAutopilotPricing` (main.go lines 319-423) restricted to its pure
part: fold the description-routing loop over a given SKU catalog,
starting from the all-zero record. The catalog fetch itself is the
out-of-scope billing collaborator, so the SKU list is a parameter. -/
def GetAutopilotPricing (region : String) (skus : List Sku) : ap_pricing :=
  skus.foldl (applySku region) (initialPricing region)

/-- Pricing fixture for the spot Balanced branch: regular spot prices 1,
balanced spot prices 2, everything else 0. -/
def balancedSpotFixture : ap_pricing :=
  { initialPricing "r1" with
    spot_cpu_price := 1
    spot_memory_price := 1
    spot_cpu_balanced_price := 2
    spot_memory_balanced_price := 2 }

/-- A workload of cost 1 hosted on the spot node fixture. -/
def spotWorkload : Workload :=
  { name := "w-spot", containers := 1, node_name := "n-spot"
    cpu := 250, memory := 500, storage := 10, cost := 1
    compute_class := ComputeClass.COMPUTE_CLASS_REGULAR }

/-- A spot node hosting one workload of cost 1. -/
def spotNode : Node :=
  { name := "n-spot", instanceType := "e2-standard-4", region := "r1"
    spot := true, workloads := [spotWorkload], cost := 1 }

/-- A workload of cost 2 hosted on the second spot node fixture. -/
def spotWorkload2 : Workload :=
  { name := "w-spot-2", containers := 1, node_name := "n-spot-2"
    cpu := 250, memory := 500, storage := 10, cost := 2
    compute_class := ComputeClass.COMPUTE_CLASS_REGULAR }

/-- A second spot node, hosting one workload of cost 2. -/
def spotNode2 : Node :=
  { name := "n-spot-2", instanceType := "e2-standard-4", region := "r1"
    spot := true, workloads := [spotWorkload2], cost := 2 }

/-- A workload of cost 3 hosted on the on-demand node fixture. -/
def onDemandWorkload : Workload :=
  { name := "w-od", containers := 1, node_name := "n-od"
    cpu := 250, memory := 500, storage := 10, cost := 3
    compute_class := ComputeClass.COMPUTE_CLASS_REGULAR }

/-- An on-demand (non-spot) node hosting one workload of cost 3. -/
def onDemandNode : Node :=
  { name := "n-od", instanceType := "e2-standard-4", region := "r1"
    spot := false, workloads := [onDemandWorkload], cost := 3 }

/-- A mixed cluster: one spot node (workload cost 2) and one on-demand
node (workload cost 3). -/
def mixedCluster : List Node := [spotNode2, onDemandNode]

/-- A workload of cost 1 for the accumulation-order witness. -/
def permWorkloadA : Workload :=
  { name := "wa", containers := 1, node_name := "n1"
    cpu := 250, memory := 500, storage := 10, cost := 1
    compute_class := ComputeClass.COMPUTE_CLASS_REGULAR }

/-- A workload of cost 2 for the accumulation-order witness. -/
def permWorkloadB : Workload :=
  { name := "wb", containers := 1, node_name := "n1"
    cpu := 250, memory := 500, storage := 10, cost := 2
    compute_class := ComputeClass.COMPUTE_CLASS_REGULAR }

/-- The ARM spot memory SKU fixture at a decoded price of 2. -/
def armSpotMemorySku : Sku :=
  { description := "Autopilot Scale-Out Arm Spot Pod Memory Requests (europe-west4)"
    serviceRegions := ["europe-west4"], units := 2, nanos := 0, displayQuantity := 1 }

/-- The ARM spot mCPU SKU fixture at a decoded price of 3. -/
def armSpotCpuSku : Sku :=
  { description := "Autopilot Scale-Out Arm Spot Pod mCPU Requests (europe-west4)"
    serviceRegions := ["europe-west4"], units := 3, nanos := 0, displayQuantity := 1 }

end Autopilot

namespace Autopilot

open ComputeClass

/-- C6: `ValidateLowerLimits` raises exactly the components below their
floors (250 mCPU, 500 MiB memory, 10 MiB storage) to those floors and
leaves components at or above their floor unchanged (componentwise this
is `max` with the floor), and in particular maps (1000,1000,1000) to
itself and (249,499,9) to (250,500,10). -/
theorem validateLowerLimits_clamps_to_floors :
    (∀ c m s : ℤ, ValidateLowerLimits c m s = (max 250 c, max 500 m, max 10 s)) ∧
    ValidateLowerLimits 1000 1000 1000 = (1000, 1000, 1000) ∧
    ValidateLowerLimits 249 499 9 = (250, 500, 10) := by
  refine ⟨fun c m s => ?_, by decide, by decide⟩
  unfold ValidateLowerLimits
  simp only [Prod.mk.injEq, max_def]
  refine ⟨?_, ?_, ?_⟩ <;> split_ifs <;> omega

/-- C7: for every compute class and both billing modes, the cost
returned by `CalculatePricing` is
`cpuPrice * cpu/1000 + memPrice * mem/1000 + storagePrice * st/1000`
with the cpu/memory unit prices selected by (class, spot), and the
storage term uses the single `storage_price` rate: the storage increment
of a cost is identical across all classes and both billing modes. -/
theorem calculatePricing_unit_price_formula :
    (∀ (c m s : ℤ) (p : ap_pricing) (cls : ComputeClass) (spot : Bool),
        CalculatePricing c m s p cls spot =
          cpuUnitPrice p cls spot * (c : ℚ) / 1000 +
          memoryUnitPrice p cls spot * (m : ℚ) / 1000 +
          p.storage_price * (s : ℚ) / 1000) ∧
    (∀ (c m s : ℤ) (p : ap_pricing) (cls cls2 : ComputeClass) (spot spot2 : Bool),
        CalculatePricing c m s p cls spot - CalculatePricing c m 0 p cls spot =
        CalculatePricing c m s p cls2 spot2 - CalculatePricing c m 0 p cls2 spot2) := by
  constructor
  · intro c m s p cls spot
    cases cls <;> cases spot <;>
      simp [CalculatePricing, cpuUnitPrice, memoryUnitPrice]
  · intro c m s p cls cls2 spot spot2
    cases cls <;> cases cls2 <;> cases spot <;> cases spot2 <;>
      simp [CalculatePricing]

/-- C8: the classifier is total and deterministic: for every input with
`cpuMilli ≥ 250` it returns exactly one `ComputeClass` (no failure
outcome), and identical inputs give identical outputs. -/
theorem decideComputeClass_total_deterministic (c m : ℤ) (arm : Bool)
    (h : 250 ≤ c) :
    (∃! cl : ComputeClass, DecideComputeClass c m arm = cl) ∧
    (∀ c2 m2 arm2, c = c2 → m = m2 → arm = arm2 →
        DecideComputeClass c m arm = DecideComputeClass c2 m2 arm2) := by
  refine ⟨⟨DecideComputeClass c m arm, rfl, fun y hy => hy.symm⟩, ?_⟩
  rintro c2 m2 arm2 rfl rfl rfl
  rfl

/-- Witness for C8 at the concrete normalized input (250, 500, arm=false). -/
theorem decideComputeClass_total_deterministic_witness :
    (250 : ℤ) ≤ 250 ∧
    ((∃! cl : ComputeClass, DecideComputeClass 250 500 false = cl) ∧
     (∀ c2 m2 arm2, (250 : ℤ) = c2 → (500 : ℤ) = m2 → false = arm2 →
        DecideComputeClass 250 500 false = DecideComputeClass c2 m2 arm2)) :=
  ⟨by decide, decideComputeClass_total_deterministic 250 500 false (by decide)⟩

/-- C4: on every input with `cpuMilli ≥ 250` the source classifier
agrees with the rule chain exactly as the specification orders it:
ARM first and unconditional, then Regular, then ScaleOut, then
Balanced, then the Regular fallback, each rule with the stated ratio
and resource bounds. -/
theorem decideComputeClass_eq_classifySpec (c m : ℤ) (arm : Bool)
    (h : 250 ≤ c) :
    DecideComputeClass c m arm = classifySpec c m arm := by
  have h4 : (((Int.ceil ((m : ℚ) / (c : ℚ)) : ℤ) : ℚ) = 4) ↔
      Int.ceil ((m : ℚ) / (c : ℚ)) = 4 := by norm_cast
  simp only [DecideComputeClass, classifySpec, ratioOf, ge_iff_le, h4]

/-- Witness for C4 at the concrete input (10000 mCPU, 10000 MiB, arm=false). -/
theorem decideComputeClass_eq_classifySpec_witness :
    (250 : ℤ) ≤ 10000 ∧
    DecideComputeClass 10000 10000 false = classifySpec 10000 10000 false :=
  ⟨by decide, decideComputeClass_eq_classifySpec 10000 10000 false (by decide)⟩

/-- Helper: a node's running total after a pass is the initial total
plus the sum of the per-workload costs. -/
theorem nodeCostAfterPass_eq_sum (initial : ℚ) (ws : List Workload) :
    nodeCostAfterPass initial ws = initial + (ws.map Workload.cost).sum := by
  induction ws generalizing initial with
  | nil => simp [nodeCostAfterPass]
  | cons w t ih =>
      simp only [nodeCostAfterPass, List.foldl_cons, List.map_cons, List.sum_cons] at *
      rw [ih]
      ring

/-- C9: the accumulation of workload costs into a node's running total
is order-independent: any permutation of the workload pass gives the
same total, and the total equals the initial value plus the sum of the
per-workload costs. -/
theorem node_cost_accumulation_perm_invariant (initial : ℚ)
    (ws ws2 : List Workload) (h : ws.Perm ws2) :
    nodeCostAfterPass initial ws = nodeCostAfterPass initial ws2 ∧
    nodeCostAfterPass initial ws = initial + (ws.map Workload.cost).sum := by
  refine ⟨?_, nodeCostAfterPass_eq_sum initial ws⟩
  rw [nodeCostAfterPass_eq_sum, nodeCostAfterPass_eq_sum,
    (h.map Workload.cost).sum_eq]

/-- Witness for C9: the two-workload pass in both orders. -/
theorem node_cost_accumulation_perm_invariant_witness :
    List.Perm [permWorkloadA, permWorkloadB] [permWorkloadB, permWorkloadA] ∧
    (nodeCostAfterPass 0 [permWorkloadA, permWorkloadB] =
        nodeCostAfterPass 0 [permWorkloadB, permWorkloadA] ∧
     nodeCostAfterPass 0 [permWorkloadA, permWorkloadB] =
        0 + ([permWorkloadA, permWorkloadB].map Workload.cost).sum) :=
  ⟨List.Perm.swap permWorkloadB permWorkloadA [],
   node_cost_accumulation_perm_invariant 0 [permWorkloadA, permWorkloadB]
     [permWorkloadB, permWorkloadA]
     (List.Perm.swap permWorkloadB permWorkloadA [])⟩

/-- Helper: no branch of the SKU routing switch writes either spot ARM
price field: the only two cases naming them are the later duplicate
occurrences of the two `Scale-Out Arm Spot` descriptions, and those
descriptions were already consumed by the earlier cases that write the
on-demand ARM fields. -/
theorem applySku_spot_arm (region : String) (p : ap_pricing) (s : Sku) :
    (applySku region p s).spot_arm_cpu_scaleout_price = p.spot_arm_cpu_scaleout_price ∧
    (applySku region p s).spot_arm_memory_scaleout_price = p.spot_arm_memory_scaleout_price := by
  unfold applySku
  by_cases h0 : s.serviceRegions.contains region = true
  case neg => rw [if_neg h0]; exact ⟨rfl, rfl⟩
  rw [if_pos h0]
  by_cases h1 : s.description = "Autopilot Pod Ephemeral Storage Requests (" ++ region ++ ")"
  case pos => rw [if_pos h1]; exact ⟨rfl, rfl⟩
  rw [if_neg h1]
  by_cases h2 : s.description = "Autopilot Pod Memory Requests (" ++ region ++ ")"
  case pos => rw [if_pos h2]; exact ⟨rfl, rfl⟩
  rw [if_neg h2]
  by_cases h3 : s.description = "Autopilot Pod mCPU Requests (" ++ region ++ ")"
  case pos => rw [if_pos h3]; exact ⟨rfl, rfl⟩
  rw [if_neg h3]
  by_cases h4 : s.description = "Autopilot Balanced Pod Memory Requests (" ++ region ++ ")"
  case pos => rw [if_pos h4]; exact ⟨rfl, rfl⟩
  rw [if_neg h4]
  by_cases h5 : s.description = "Autopilot Balanced Pod mCPU Requests (" ++ region ++ ")"
  case pos => rw [if_pos h5]; exact ⟨rfl, rfl⟩
  rw [if_neg h5]
  by_cases h6 : s.description = "Autopilot Scale-Out x86 Pod Memory Requests (" ++ region ++ ")"
  case pos => rw [if_pos h6]; exact ⟨rfl, rfl⟩
  rw [if_neg h6]
  by_cases h7 : s.description = "Autopilot Scale-Out x86 Pod mCPU Requests (" ++ region ++ ")"
  case pos => rw [if_pos h7]; exact ⟨rfl, rfl⟩
  rw [if_neg h7]
  by_cases h8 : s.description = "Autopilot Scale-Out Arm Spot Pod Memory Requests (" ++ region ++ ")"
  case pos => rw [if_pos h8]; exact ⟨rfl, rfl⟩
  rw [if_neg h8]
  by_cases h9 : s.description = "Autopilot Scale-Out Arm Spot Pod mCPU Requests (" ++ region ++ ")"
  case pos => rw [if_pos h9]; exact ⟨rfl, rfl⟩
  rw [if_neg h9]
  by_cases h10 : s.description = "Autopilot Spot Pod Memory Requests (" ++ region ++ ")"
  case pos => rw [if_pos h10]; exact ⟨rfl, rfl⟩
  rw [if_neg h10]
  by_cases h11 : s.description = "Autopilot Spot Pod mCPU Requests (" ++ region ++ ")"
  case pos => rw [if_pos h11]; exact ⟨rfl, rfl⟩
  rw [if_neg h11]
  by_cases h12 : s.description = "Autopilot Balanced Spot Pod Memory Requests (" ++ region ++ ")"
  case pos => rw [if_pos h12]; exact ⟨rfl, rfl⟩
  rw [if_neg h12]
  by_cases h13 : s.description = "Autopilot Balanced Spot Pod mCPU Requests (" ++ region ++ ")"
  case pos => rw [if_pos h13]; exact ⟨rfl, rfl⟩
  rw [if_neg h13]
  by_cases h14 : s.description = "Autopilot Scale-Out x86 Spot Pod Memory Requests (" ++ region ++ ")"
  case pos => rw [if_pos h14]; exact ⟨rfl, rfl⟩
  rw [if_neg h14]
  by_cases h15 : s.description = "Autopilot Scale-Out x86 Spot Pod mCPU Requests (" ++ region ++ ")"
  case pos => rw [if_pos h15]; exact ⟨rfl, rfl⟩
  rw [if_neg h15]
  rw [if_neg h8, if_neg h9]
  exact ⟨rfl, rfl⟩

/-- Helper: the catalog fold never changes the spot ARM price fields. -/
theorem getAutopilotPricing_fold_spot_arm (region : String) (skus : List Sku)
    (p : ap_pricing) :
    (skus.foldl (applySku region) p).spot_arm_cpu_scaleout_price =
        p.spot_arm_cpu_scaleout_price ∧
    (skus.foldl (applySku region) p).spot_arm_memory_scaleout_price =
        p.spot_arm_memory_scaleout_price := by
  induction skus generalizing p with
  | nil => exact ⟨rfl, rfl⟩
  | cons s t ih =>
      simp only [List.foldl_cons]
      refine ⟨?_, ?_⟩
      · rw [(ih (applySku region p s)).1, (applySku_spot_arm region p s).1]
      · rw [(ih (applySku region p s)).2, (applySku_spot_arm region p s).2]

/-- Helper: routing the ARM spot memory SKU writes the on-demand ARM
memory field (the first matching switch case is main.go line 388). -/
theorem applySku_armSpotMemorySku :
    applySku "europe-west4" (initialPricing "europe-west4") armSpotMemorySku =
      { initialPricing "europe-west4" with memory_arm_scaleout_price := 2 } := by
  have hp : skuPrice armSpotMemorySku = 2 := by
    norm_num [skuPrice, armSpotMemorySku]
  unfold applySku
  rw [if_pos (by decide), hp]
  rw [if_neg (by decide), if_neg (by decide), if_neg (by decide),
    if_neg (by decide), if_neg (by decide), if_neg (by decide),
    if_neg (by decide), if_pos (by decide)]

/-- Helper: routing the ARM spot mCPU SKU writes the on-demand ARM cpu
field (the first matching switch case is main.go line 391). -/
theorem applySku_armSpotCpuSku (p : ap_pricing) :
    applySku "europe-west4" p armSpotCpuSku =
      { p with cpu_arm_scaleout_price := 3 } := by
  have hp : skuPrice armSpotCpuSku = 3 := by
    norm_num [skuPrice, armSpotCpuSku]
  unfold applySku
  rw [if_pos (by decide), hp]
  rw [if_neg (by decide), if_neg (by decide), if_neg (by decide),
    if_neg (by decide), if_neg (by decide), if_neg (by decide),
    if_neg (by decide), if_neg (by decide), if_pos (by decide)]

/-- C5: for every SKU catalog, the record built by `GetAutopilotPricing`
has both spot ARM price fields still at their zero initialization — the
later duplicate `Scale-Out Arm Spot` switch cases never match — while
a SKU carrying the `Scale-Out Arm Spot` descriptions lands in the
on-demand ARM fields (shown on the two concrete ARM spot SKUs). -/
theorem getAutopilotPricing_spot_arm_fields_zero :
    (∀ (region : String) (skus : List Sku),
        (GetAutopilotPricing region skus).spot_arm_cpu_scaleout_price = 0 ∧
        (GetAutopilotPricing region skus).spot_arm_memory_scaleout_price = 0) ∧
    (GetAutopilotPricing "europe-west4" [armSpotMemorySku, armSpotCpuSku]).memory_arm_scaleout_price = 2 ∧
    (GetAutopilotPricing "europe-west4" [armSpotMemorySku, armSpotCpuSku]).cpu_arm_scaleout_price = 3 ∧
    (GetAutopilotPricing "europe-west4" [armSpotMemorySku, armSpotCpuSku]).spot_arm_memory_scaleout_price = 0 ∧
    (GetAutopilotPricing "europe-west4" [armSpotMemorySku, armSpotCpuSku]).spot_arm_cpu_scaleout_price = 0 := by
  have hfold :
      GetAutopilotPricing "europe-west4" [armSpotMemorySku, armSpotCpuSku] =
        { initialPricing "europe-west4" with
            memory_arm_scaleout_price := 2, cpu_arm_scaleout_price := 3 } := by
    unfold GetAutopilotPricing
    rw [List.foldl_cons, applySku_armSpotMemorySku, List.foldl_cons,
      applySku_armSpotCpuSku, List.foldl_nil]
  refine ⟨fun region skus => ?_, ?_, ?_, ?_, ?_⟩
  · unfold GetAutopilotPricing
    refine ⟨?_, ?_⟩
    · rw [(getAutopilotPricing_fold_spot_arm region skus (initialPricing region)).1]
      rfl
    · rw [(getAutopilotPricing_fold_spot_arm region skus (initialPricing region)).2]
      rfl
  all_goals rw [hfold]
  all_goals rfl

/-- C10: degradation conditions never raise a failure. In either billing
mode, an ARM price pair resolved for the (class, spot) combination with
a zero component still yields the computed (possibly zero) cost, paired
with the warning — the spot pair on the spot branch (main.go lines
246-250), the on-demand pair on the on-demand branch (main.go lines
261-265) — and an input matching no classification rule yields
`Regular`, paired with the warning. -/
theorem degradation_warns_never_fails :
    (∀ (c m s : ℤ) (p : ap_pricing),
        p.spot_arm_cpu_scaleout_price = 0 ∨ p.spot_arm_memory_scaleout_price = 0 →
        CalculatePricingLogged c m s p COMPUTE_CLASS_SCALEOUT_ARM true =
          (CalculatePricing c m s p COMPUTE_CLASS_SCALEOUT_ARM true, true)) ∧
    (∀ (c m s : ℤ) (p : ap_pricing),
        p.cpu_arm_scaleout_price = 0 ∨ p.memory_arm_scaleout_price = 0 →
        CalculatePricingLogged c m s p COMPUTE_CLASS_SCALEOUT_ARM false =
          (CalculatePricing c m s p COMPUTE_CLASS_SCALEOUT_ARM false, true)) ∧
    (∀ c m : ℤ,
        ¬((ratioOf c m : ℚ) ≥ 1 ∧ (ratioOf c m : ℚ) ≤ 6.5 ∧ c ≤ 30000 ∧ m ≤ 110000) →
        ¬((ratioOf c m : ℚ) = 4 ∧ c ≤ 54000 ∧ m ≤ 216000) →
        ¬((ratioOf c m : ℚ) ≥ 1 ∧ (ratioOf c m : ℚ) ≤ 8 ∧ (c > 30000 ∨ m > 110000)) →
        DecideComputeClassLogged c m false = (COMPUTE_CLASS_REGULAR, true) ∧
        DecideComputeClass c m false = COMPUTE_CLASS_REGULAR) := by
  refine ⟨?_, ?_, ?_⟩
  · intro c m s p h
    exact Prod.ext rfl (decide_eq_true h)
  · intro c m s p h
    exact Prod.ext rfl (decide_eq_true h)
  · intro c m h1 h2 h3
    constructor
    · unfold DecideComputeClassLogged
      rw [if_neg Bool.false_ne_true, if_neg h1, if_neg h2, if_neg h3]
    · unfold DecideComputeClass
      rw [if_neg Bool.false_ne_true, if_neg h1, if_neg h2, if_neg h3]

/-- Helper: the ceiling ratio of the (250 mCPU, 100000 MiB) input. -/
theorem ratioOf_250_100000 : ratioOf 250 100000 = 400 := by
  norm_num [ratioOf]

/-- Helper: the Regular rule rejects (250 mCPU, 100000 MiB): the ratio
400 is far above 6.5. -/
theorem rule_regular_fails_250_100000 :
    ¬((ratioOf 250 100000 : ℚ) ≥ 1 ∧ (ratioOf 250 100000 : ℚ) ≤ 6.5 ∧
      (250 : ℤ) ≤ 30000 ∧ (100000 : ℤ) ≤ 110000) := by
  rw [ratioOf_250_100000]
  norm_num

/-- Helper: the ScaleOut rule rejects (250 mCPU, 100000 MiB): the ratio
is not 4. -/
theorem rule_scaleout_fails_250_100000 :
    ¬((ratioOf 250 100000 : ℚ) = 4 ∧ (250 : ℤ) ≤ 54000 ∧ (100000 : ℤ) ≤ 216000) := by
  rw [ratioOf_250_100000]
  norm_num

/-- Helper: the Balanced rule rejects (250 mCPU, 100000 MiB): the ratio
400 is above 8. -/
theorem rule_balanced_fails_250_100000 :
    ¬((ratioOf 250 100000 : ℚ) ≥ 1 ∧ (ratioOf 250 100000 : ℚ) ≤ 8 ∧
      ((250 : ℤ) > 30000 ∨ (100000 : ℤ) > 110000)) := by
  rw [ratioOf_250_100000]
  norm_num

/-- Witness for C10: the all-zero price record (zero ARM prices in both
billing modes) and the no-rule-matches input (250 mCPU, 100000 MiB). -/
theorem degradation_warns_never_fails_witness :
    ((initialPricing "r").spot_arm_cpu_scaleout_price = 0 ∨
     (initialPricing "r").spot_arm_memory_scaleout_price = 0) ∧
    CalculatePricingLogged 1000 2000 10 (initialPricing "r")
        COMPUTE_CLASS_SCALEOUT_ARM true =
      (CalculatePricing 1000 2000 10 (initialPricing "r")
        COMPUTE_CLASS_SCALEOUT_ARM true, true) ∧
    ((initialPricing "r").cpu_arm_scaleout_price = 0 ∨
     (initialPricing "r").memory_arm_scaleout_price = 0) ∧
    CalculatePricingLogged 1000 2000 10 (initialPricing "r")
        COMPUTE_CLASS_SCALEOUT_ARM false =
      (CalculatePricing 1000 2000 10 (initialPricing "r")
        COMPUTE_CLASS_SCALEOUT_ARM false, true) ∧
    (DecideComputeClassLogged 250 100000 false = (COMPUTE_CLASS_REGULAR, true) ∧
     DecideComputeClass 250 100000 false = COMPUTE_CLASS_REGULAR) :=
  ⟨Or.inl rfl,
   degradation_warns_never_fails.1 1000 2000 10 (initialPricing "r") (Or.inl rfl),
   Or.inl rfl,
   degradation_warns_never_fails.2.1 1000 2000 10 (initialPricing "r") (Or.inl rfl),
   degradation_warns_never_fails.2.2 250 100000 rule_regular_fails_250_100000
     rule_scaleout_fails_250_100000 rule_balanced_fails_250_100000⟩

/-- C1 demonstration: on the spot Balanced branch the source multiplies
by `spot_cpu_price` and `spot_memory_price` (main.go line 243), not by
the dedicated `spot_cpu_balanced_price`/`spot_memory_balanced_price`
pair: with regular spot prices 1 and balanced spot prices 2, the cost of
a (1000 mCPU, 1000 MiB, 0 MiB) spot Balanced workload comes out as 2,
not as the 4 that the dedicated balanced spot pair would give. -/
theorem calculatePricing_spot_balanced_failing_input :
    CalculatePricing 1000 1000 0 balancedSpotFixture COMPUTE_CLASS_BALANCED true = 2 ∧
    balancedSpotFixture.spot_cpu_balanced_price * ((1000 : ℤ) : ℚ) / 1000 +
      balancedSpotFixture.spot_memory_balanced_price * ((1000 : ℤ) : ℚ) / 1000 +
      balancedSpotFixture.storage_price * ((0 : ℤ) : ℚ) / 1000 = 4 ∧
    CalculatePricing 1000 1000 0 balancedSpotFixture COMPUTE_CLASS_BALANCED true ≠
      balancedSpotFixture.spot_cpu_balanced_price * ((1000 : ℤ) : ℚ) / 1000 +
      balancedSpotFixture.spot_memory_balanced_price * ((1000 : ℤ) : ℚ) / 1000 +
      balancedSpotFixture.storage_price * ((0 : ℤ) : ℚ) / 1000 := by
  norm_num [CalculatePricing, balancedSpotFixture, initialPricing]

/-- C2 demonstration: the "Total cost per cluster per hour" row prints
the non-spot accumulator alone, so on a cluster whose only workload
(cost 1) is on a spot node, the reported total is just the 0.1 cluster
fee instead of the 1.1 sum of both accumulators — and it is even lower
than the reported 1-year-commit figure of the same table. -/
theorem reported_total_drops_spot_at_failing_input :
    (clusterTotals [spotNode]).1 = CLUSTER_FEE ∧
    (clusterTotals [spotNode]).2 = 1 ∧
    reportedTotal [spotNode] = CLUSTER_FEE ∧
    reportedTotal [spotNode] ≠
      (clusterTotals [spotNode]).1 + (clusterTotals [spotNode]).2 ∧
    reportedTotal [spotNode] < reportedTotal1yr [spotNode] := by
  norm_num [clusterTotals, reportedTotal, reportedTotal1yr, spotNode,
    spotWorkload, CLUSTER_FEE, ONE_YEAR_DISCOUNT]

/-- C3 demonstration: the discount law that the reported rows actually
satisfy is `total_1yr - spotTotal = 0.8 * total` (and `0.55` for three
years), because the reported total is the non-spot accumulator alone;
the claimed law `total_1yr - spotTotal = 0.8 * (total - spotTotal)`
fails on the mixed cluster (spot workload cost 2, non-spot workload
cost 3): 2.48 against 0.8 * 1.1 = 0.88. -/
theorem commitment_law_at_reported_totals :
    (∀ nodes : List Node,
        reportedTotal1yr nodes - (clusterTotals nodes).2 =
          ONE_YEAR_DISCOUNT * reportedTotal nodes ∧
        reportedTotal3yr nodes - (clusterTotals nodes).2 =
          THREE_YEAR_DISCOUNT * reportedTotal nodes) ∧
    reportedTotal1yr mixedCluster - (clusterTotals mixedCluster).2 ≠
      ONE_YEAR_DISCOUNT * (reportedTotal mixedCluster - (clusterTotals mixedCluster).2) ∧
    reportedTotal3yr mixedCluster - (clusterTotals mixedCluster).2 ≠
      THREE_YEAR_DISCOUNT * (reportedTotal mixedCluster - (clusterTotals mixedCluster).2) := by
  refine ⟨fun nodes => ⟨?_, ?_⟩, ?_, ?_⟩
  · unfold reportedTotal1yr reportedTotal
    ring
  · unfold reportedTotal3yr reportedTotal
    ring
  all_goals
    norm_num [reportedTotal, reportedTotal1yr, reportedTotal3yr, clusterTotals,
      mixedCluster, spotNode2, spotWorkload2, onDemandNode, onDemandWorkload,
      CLUSTER_FEE, ONE_YEAR_DISCOUNT, THREE_YEAR_DISCOUNT]

end Autopilot

